import Mathlib

/-!
Verification development for the MCP food-ordering tool server.

The repository exposes two tools: `execute_order_management`
(src/tools/order_management.py), which applies a classified cart command
(add / remove / modify / clear) to a per-session cart, and
`execute_menu_guide` (src/tools/menu_guide_tool.py), whose deterministic
prefix sets the browsing phase and short-circuits on an empty tenant menu.

The LLM intent classifier is an external collaborator: its structured
output (`FoodListUpdate`) is taken as the input of the embedded cart
engine, exactly as `execute_order_management` consumes the result of
`extract_order_items_from_query`.  The deterministic customization-append
performed at the end of that extraction function is embedded as
`apply_customization`.

Carts are Python dicts from menu-id strings to integer quantities; they
are embedded as association lists with Python dict semantics (assignment
replaces in place, deletion removes the key, comprehension filters in
order).  Python `str.lower()` is embedded as per-character lowercasing.
-/

namespace FoodOrder

/-- Per-character lowercasing, the embedding of Python `str.lower()`. -/
def strLower (s : String) : String := ⟨s.data.map Char.toLower⟩

/-- One tenant menu entry as read by the tools: `menu_id` plus the two
possible name fields consulted by `m.get("name") or m.get("item_name", "")`. -/
structure MenuItem where
  menu_id : Nat
  name : Option String
  item_name : Option String
deriving DecidableEq, Repr

/-- `(m.get("name") or m.get("item_name", ""))`: the `name` field when it is
present and non-empty (truthy), otherwise `item_name` with default `""`. -/
def MenuItem.display_name (m : MenuItem) : String :=
  match m.name with
  | some s => if s = "" then m.item_name.getD "" else s
  | none => m.item_name.getD ""

/-- `str(m.get("menu_id"))`: the canonical string form of the menu id. -/
def MenuItem.canonical_id (m : MenuItem) : String := toString m.menu_id

/-- The `name_to_id` dict comprehension of order_management.py followed by
`.get`: maps a lowercased display name to the canonical id string; as in a
Python dict comprehension, a later menu entry overrides an earlier one with
the same lowercased name. -/
def name_to_id (menu : List MenuItem) (k : String) : Option String :=
  ((menu.map fun m => (strLower m.display_name, m.canonical_id)).reverse.find?
      fun kv => kv.1 = k).map fun kv => kv.2

/-- The session cart `food_list`: a Python dict from canonical menu-id
strings to integer quantities, embedded as an association list. -/
abbrev Cart := List (String × Int)

/-- `d.get(k)` / `k in d` on the cart dict. -/
def Cart.get : Cart → String → Option Int
  | [], _ => none
  | (k2, v) :: rest, k => if k2 = k then some v else Cart.get rest k

/-- `d.get(k, dflt)` on the cart dict. -/
def Cart.getD (c : Cart) (k : String) (dflt : Int) : Int := (c.get k).getD dflt

/-- `d[k] = v` on the cart dict: replace the value in place when the key is
present, otherwise append the new pair at the end (dict insertion order). -/
def Cart.setVal : Cart → String → Int → Cart
  | [], k, v => [(k, v)]
  | (k2, v2) :: rest, k, v =>
      if k2 = k then (k2, v) :: rest else (k2, v2) :: Cart.setVal rest k v

/-- `del d[k]` / `d.pop(k, None)` on the cart dict. -/
def Cart.eraseKey : Cart → String → Cart
  | [], _ => []
  | (k2, v2) :: rest, k =>
      if k2 = k then rest else (k2, v2) :: Cart.eraseKey rest k

/-- One extracted item of the classifier output (`FoodItem` pydantic model). -/
structure FoodItem where
  name : String
  quantity : Int
deriving DecidableEq, Repr

/-- The classifier output (`FoodListUpdate` pydantic model). -/
structure FoodListUpdate where
  items : List FoodItem
  action : String
  should_update : Bool
  has_customization : Bool
  customization_text : String
deriving DecidableEq, Repr

/-- A session record, as created by `get_session` in server.py. -/
structure Config where
  phase : String
  current_category : String
  food_list : Cart
  food_customization_details : String
deriving DecidableEq, Repr

/-- The fresh session record created by `get_session` for an unknown id. -/
def initial_session_config : Config :=
  { phase := "IDLE", current_category := "", food_list := [],
    food_customization_details := "" }

/-- `is_post_placement` of order_management.py. -/
def is_post_placement (config : Config) : Bool := config.phase == "ORDER_PLACED"

/-- The deterministic tail of `extract_order_items_from_query`: when the
classifier flags a customization, its stripped text is appended to the
session's accumulated notes, semicolon-separated when notes already exist. -/
def apply_customization (r : FoodListUpdate) (config : Config) : Config :=
  if r.has_customization then
    let existing := config.food_customization_details
    let t := r.customization_text.trim
    { config with
        food_customization_details := if existing ≠ "" then existing ++ "; " ++ t else t }
  else config

/-- The mutable state of the per-item application loop of
`execute_order_management`: the cart plus the four report accumulators. -/
structure ApplyState where
  food_list : Cart
  actually_added : List FoodItem
  actually_removed : List FoodItem
  actually_modified : List FoodItem
  not_found_items : List String
deriving DecidableEq, Repr

/-- One iteration of the `for item in result.items` loop of
`execute_order_management` (resolution by lowercased name, then the
add / remove / modify dispatch). -/
def apply_item (action : String) (menu : List MenuItem) (s : ApplyState)
    (item : FoodItem) : ApplyState :=
  match name_to_id menu (strLower item.name) with
  | none => { s with not_found_items := s.not_found_items ++ [item.name] }
  | some menu_id =>
    if action = "add" then
      { s with
          food_list := s.food_list.setVal menu_id
            (s.food_list.getD menu_id 0 + item.quantity),
          actually_added := s.actually_added ++ [item] }
    else if action = "remove" then
      match s.food_list.get menu_id with
      | some current_qty =>
        if max 0 (current_qty - item.quantity) = 0 then
          { s with food_list := s.food_list.eraseKey menu_id,
                   actually_removed := s.actually_removed ++ [item] }
        else
          { s with food_list := s.food_list.setVal menu_id
                     (max 0 (current_qty - item.quantity)),
                   actually_removed := s.actually_removed ++ [item] }
      | none => { s with not_found_items := s.not_found_items ++ [item.name] }
    else if action = "modify" then
      if item.quantity = 0 then
        match s.food_list.get menu_id with
        | some _ =>
          { s with food_list := s.food_list.eraseKey menu_id,
                   actually_removed := s.actually_removed ++ [item] }
        | none => { s with not_found_items := s.not_found_items ++ [item.name] }
      else
        { s with food_list := s.food_list.setVal menu_id item.quantity,
                 actually_modified := s.actually_modified ++ [item] }
    else s

/-- The whole `for item in result.items` loop. -/
def apply_items (action : String) (menu : List MenuItem) :
    ApplyState → List FoodItem → ApplyState
  | s, [] => s
  | s, i :: rest => apply_items action menu (apply_item action menu s i) rest

/-- The effect of one loop iteration on the cart alone: `apply_item` with
the report accumulators projected away (used to reason about the cart
component of the loop). -/
def cart_step (action : String) (menu : List MenuItem) (c : Cart)
    (item : FoodItem) : Cart :=
  match name_to_id menu (strLower item.name) with
  | none => c
  | some menu_id =>
    if action = "add" then c.setVal menu_id (c.getD menu_id 0 + item.quantity)
    else if action = "remove" then
      match c.get menu_id with
      | some current_qty =>
        if max 0 (current_qty - item.quantity) = 0 then c.eraseKey menu_id
        else c.setVal menu_id (max 0 (current_qty - item.quantity))
      | none => c
    else if action = "modify" then
      if item.quantity = 0 then
        match c.get menu_id with
        | some _ => c.eraseKey menu_id
        | none => c
      else c.setVal menu_id item.quantity
    else c

/-- `[f"{i.quantity}x {i.name}" for i in l]` joined with `", "`. -/
def fmt_qty_items (l : List FoodItem) : String :=
  String.intercalate ", " (l.map fun i => toString i.quantity ++ "x " ++ i.name)

/-- The "Responses" block at the end of `execute_order_management`: given
the action, the post-placement flag read at entry, the final loop state and
the purged cart, select the response string. -/
def order_response (action : String) (post_placement : Bool) (s : ApplyState)
    (food_list : Cart) : String :=
  if action = "remove" ∧ post_placement = true ∧ food_list = [] then
    "FULL_CANCELLATION_CONFIRMED"
  else if action = "add" then
    if s.actually_added ≠ [] then
      "Added " ++ fmt_qty_items s.actually_added ++ " to your order!"
    else "I couldn\x27t find those items in our menu."
  else if action = "remove" then
    if s.actually_removed ≠ [] then
      "Removed " ++ fmt_qty_items s.actually_removed ++ " from your order!"
    else if s.not_found_items ≠ [] then
      "Couldn\x27t process removal. " ++
        String.intercalate ", " s.not_found_items ++ " not in order."
    else "Nothing removed."
  else if action = "modify" then
    if s.actually_modified ≠ [] then
      "Updated your order: " ++ fmt_qty_items s.actually_modified
    else "I couldn\x27t find those items to modify."
  else "Sorry, I couldn\x27t process that order request."

/-- `execute_order_management` of order_management.py, taking the classifier
output `r` in place of the call to `extract_order_items_from_query` (whose
deterministic customization side effect is replayed by
`apply_customization`) and the tenant menu in place of the context fetch.
Returns the updated session record and the response string. -/
def execute_order_management (r : FoodListUpdate) (menu : List MenuItem)
    (config : Config) : Config × String :=
  let current_phase := config.phase
  let post_placement := is_post_placement config
  let config := apply_customization r config
  if r.action = "clear" then
    ({ config with food_list := [] },
     if post_placement then "FULL_CANCELLATION_CONFIRMED"
     else "Order cleared! Ready to start fresh?")
  else
    let s := apply_items r.action menu
      { food_list := config.food_list, actually_added := [], actually_removed := [],
        actually_modified := [], not_found_items := [] } r.items
    let food_list := s.food_list.filter fun kv => 0 < kv.2
    let config := { config with food_list := food_list }
    let config :=
      if current_phase ≠ "ORDER_PLACED" then { config with phase := "ORDERING" }
      else config
    (config, order_response r.action post_placement s food_list)

/-- The fixed `json.dumps` payload returned by `execute_menu_guide` when the
tenant menu is empty. -/
def no_menu_data_response : String :=
  "\x7b\"intent\": \"other\", \"response_text\": \"I\x27m sorry, I couldn\x27t find any menu data for this restaurant.\", \"items\": []\x7d"

/-- The deterministic opening section of `execute_menu_guide`
(src/tools/menu_guide_tool.py lines 46-59): the phase is set to
MENU_BROWSING unconditionally, then an empty tenant menu short-circuits
with the fixed no-menu-data response.  A `none` second component stands
for control reaching the LLM-driven remainder of the function, which is
an external collaborator and not modelled. -/
def menu_guide_start (menu : List MenuItem) (config : Config) :
    Config × Option String :=
  let config := { config with phase := "MENU_BROWSING" }
  if menu = [] then (config, some no_menu_data_response)
  else (config, none)

/-! ### Concrete sample data used by witnesses and counterexamples -/

/-- A one-item tenant menu: item 101 displayed as "Burger". -/
def menuBurger : List MenuItem := [⟨101, some "Burger", none⟩]

/-- Classifier output: add one "BURGER" (upper-case name reference). -/
def add_burger_cmd : FoodListUpdate := ⟨[⟨"BURGER", 1⟩], "add", true, false, ""⟩

/-- Classifier output: add one item referenced by the canonical id "101". -/
def add_id_cmd : FoodListUpdate := ⟨[⟨"101", 1⟩], "add", true, false, ""⟩

/-- Classifier output: add one "pizza", which no menu entry matches. -/
def add_pizza_cmd : FoodListUpdate := ⟨[⟨"pizza", 1⟩], "add", true, false, ""⟩

/-- Classifier output: clear the cart. -/
def clear_cmd : FoodListUpdate := ⟨[], "clear", true, false, ""⟩

/-- Classifier output: remove one "burger". -/
def remove_burger_cmd : FoodListUpdate := ⟨[⟨"burger", 1⟩], "remove", true, false, ""⟩

/-- Classifier output: set "burger" to quantity 2. -/
def modify_burger_cmd : FoodListUpdate := ⟨[⟨"burger", 2⟩], "modify", true, false, ""⟩

/-! ### Helper lemmas -/

lemma apply_customization_phase (r : FoodListUpdate) (c : Config) :
    (apply_customization r c).phase = c.phase := by
  unfold apply_customization; split <;> rfl

lemma apply_customization_category (r : FoodListUpdate) (c : Config) :
    (apply_customization r c).current_category = c.current_category := by
  unfold apply_customization; split <;> rfl

lemma apply_customization_food_list (r : FoodListUpdate) (c : Config) :
    (apply_customization r c).food_list = c.food_list := by
  unfold apply_customization; split <;> rfl

/-- The cart returned by a non-clear call is the loop result filtered to
positive quantities. -/
lemma execute_food_list (r : FoodListUpdate) (menu : List MenuItem)
    (config : Config) (h : r.action ≠ "clear") :
    (execute_order_management r menu config).1.food_list =
      (apply_items r.action menu
        { food_list := (apply_customization r config).food_list,
          actually_added := [], actually_removed := [], actually_modified := [],
          not_found_items := [] } r.items).food_list.filter fun kv => 0 < kv.2 := by
  unfold execute_order_management
  simp only [if_neg h]
  split <;> rfl

/-- The response of a non-clear call is `order_response` applied to the loop
result and the purged cart. -/
lemma execute_response (r : FoodListUpdate) (menu : List MenuItem)
    (config : Config) (h : r.action ≠ "clear") :
    (execute_order_management r menu config).2 =
      order_response r.action (is_post_placement config)
        (apply_items r.action menu
          { food_list := (apply_customization r config).food_list,
            actually_added := [], actually_removed := [], actually_modified := [],
            not_found_items := [] } r.items)
        ((apply_items r.action menu
          { food_list := (apply_customization r config).food_list,
            actually_added := [], actually_removed := [], actually_modified := [],
            not_found_items := [] } r.items).food_list.filter fun kv => 0 < kv.2) := by
  unfold execute_order_management
  simp only [if_neg h]

/-- The phase stored by a call: unchanged on the clear branch, otherwise
forced to ORDERING unless the session was already ORDER_PLACED. -/
lemma execute_phase (r : FoodListUpdate) (menu : List MenuItem) (config : Config) :
    (execute_order_management r menu config).1.phase =
      if r.action = "clear" then config.phase
      else if config.phase ≠ "ORDER_PLACED" then "ORDERING" else config.phase := by
  unfold execute_order_management
  by_cases hc : r.action = "clear"
  · simp only [if_pos hc]
    exact apply_customization_phase r config
  · simp only [if_neg hc]
    by_cases hp : config.phase ≠ "ORDER_PLACED"
    · simp only [if_pos hp]
    · simp only [if_neg hp]
      exact apply_customization_phase r config

/-- With the post-placement flag false, no branch of `order_response`
returns the full-cancellation signal: each other response string differs
from it already in its first character. -/
lemma order_response_ne_full (action : String) (s : ApplyState) (fl : Cart) :
    order_response action false s fl ≠ "FULL_CANCELLATION_CONFIRMED" := by
  unfold order_response
  have hfirst : ¬(action = "remove" ∧ (false : Bool) = true ∧ fl = []) := by
    rintro ⟨-, hb, -⟩; exact Bool.false_ne_true hb
  simp only [if_neg hfirst]
  split_ifs <;>
    first
      | decide
      | (intro h; have h2 := congrArg String.data h;
         simp [String.data_append] at h2)

/-! ### C1: cart entries are strictly positive after every call -/

/-- C1: after any `execute_order_management` call, every entry stored in the
session's `food_list` has a strictly positive quantity: the clear branch
stores the empty cart, and every other branch filters out non-positive
quantities before storing, so an operation whose result would be zero or
negative removes the entry instead of storing it. -/
theorem cart_quantities_positive (r : FoodListUpdate) (menu : List MenuItem)
    (config : Config) (kv : String × Int)
    (h : kv ∈ (execute_order_management r menu config).1.food_list) :
    0 < kv.2 := by
  by_cases hc : r.action = "clear"
  · unfold execute_order_management at h
    simp only [if_pos hc] at h
    simp at h
  · rw [execute_food_list r menu config hc] at h
    simp only [List.mem_filter, decide_eq_true_eq] at h
    exact h.2

/-- Witness for C1 at a concrete input: adding one Burger to a fresh session
stores entry ("101", 1), whose quantity is positive. -/
theorem cart_quantities_positive_witness :
    ("101", (1 : Int)) ∈
        (execute_order_management add_burger_cmd menuBurger
          initial_session_config).1.food_list ∧
      (0 : Int) < (("101", (1 : Int)) : String × Int).2 :=
  ⟨by decide,
   cart_quantities_positive add_burger_cmd menuBurger initial_session_config
     ("101", 1) (by decide)⟩

/-! ### C9: the clear branch changes only the cart -/

/-- C9: on a clear command, `execute_order_management` empties the cart and
leaves the session's `phase` and `current_category` unchanged, because the
clear branch returns before the phase-advance statement runs. -/
theorem clear_frame_effect (r : FoodListUpdate) (menu : List MenuItem)
    (config : Config) (h : r.action = "clear") :
    (execute_order_management r menu config).1.phase = config.phase ∧
    (execute_order_management r menu config).1.current_category =
      config.current_category ∧
    (execute_order_management r menu config).1.food_list = [] := by
  unfold execute_order_management
  simp only [if_pos h]
  refine ⟨apply_customization_phase r config, apply_customization_category r config, ?_⟩
  trivial

/-- Witness for C9: clearing a session that is browsing the "Mains" category
in phase MENU_BROWSING keeps both fields and empties the cart. -/
theorem clear_frame_effect_witness :
    (execute_order_management clear_cmd menuBurger
        { phase := "MENU_BROWSING", current_category := "Mains",
          food_list := [("101", 2)], food_customization_details := "" }).1.phase =
      "MENU_BROWSING" ∧
    (execute_order_management clear_cmd menuBurger
        { phase := "MENU_BROWSING", current_category := "Mains",
          food_list := [("101", 2)], food_customization_details := "" }).1.current_category =
      "Mains" ∧
    (execute_order_management clear_cmd menuBurger
        { phase := "MENU_BROWSING", current_category := "Mains",
          food_list := [("101", 2)], food_customization_details := "" }).1.food_list = [] :=
  clear_frame_effect clear_cmd menuBurger
    { phase := "MENU_BROWSING", current_category := "Mains",
      food_list := [("101", 2)], food_customization_details := "" } (by decide)

/-! ### C8: clear is idempotent -/

/-- C8: issuing clear twice in immediate succession leaves the cart empty
after each call, the second call is a no-op on the cart, and both calls
return the same outcome (the clear branch does not change the phase, so the
post-placement test resolves identically on both calls). -/
theorem clear_idempotent (r : FoodListUpdate) (menu : List MenuItem)
    (config : Config) (h : r.action = "clear") :
    (execute_order_management r menu config).1.food_list = [] ∧
    (execute_order_management r menu
        (execute_order_management r menu config).1).1.food_list = [] ∧
    (execute_order_management r menu
        (execute_order_management r menu config).1).2 =
      (execute_order_management r menu config).2 := by
  unfold execute_order_management
  simp only [if_pos h, is_post_placement, apply_customization_phase]
  refine ⟨?_, ?_, ?_⟩ <;> trivial

/-- Witness for C8: two consecutive clears on a fresh session. -/
theorem clear_idempotent_witness :
    (execute_order_management clear_cmd menuBurger initial_session_config).1.food_list = [] ∧
    (execute_order_management clear_cmd menuBurger
        (execute_order_management clear_cmd menuBurger initial_session_config).1).1.food_list = [] ∧
    (execute_order_management clear_cmd menuBurger
        (execute_order_management clear_cmd menuBurger initial_session_config).1).2 =
      (execute_order_management clear_cmd menuBurger initial_session_config).2 :=
  clear_idempotent clear_cmd menuBurger initial_session_config (by decide)

/-! ### C3: the post-placement full-cancellation signal -/

/-- C3: with phase ORDER_PLACED, a clear command — or a remove command whose
stored cart comes out empty — returns the distinct full-cancellation
confirmation-required outcome "FULL_CANCELLATION_CONFIRMED"; with any other
phase, clear returns the ordinary cleared message and no call at all
returns the full-cancellation outcome. -/
theorem post_placement_cancellation_signal (r : FoodListUpdate)
    (menu : List MenuItem) (config : Config) :
    (r.action = "clear" → config.phase = "ORDER_PLACED" →
      (execute_order_management r menu config).2 = "FULL_CANCELLATION_CONFIRMED") ∧
    (r.action = "clear" → config.phase ≠ "ORDER_PLACED" →
      (execute_order_management r menu config).2 = "Order cleared! Ready to start fresh?") ∧
    (r.action = "remove" → config.phase = "ORDER_PLACED" →
      (execute_order_management r menu config).1.food_list = [] →
      (execute_order_management r menu config).2 = "FULL_CANCELLATION_CONFIRMED") ∧
    (config.phase ≠ "ORDER_PLACED" →
      (execute_order_management r menu config).2 ≠ "FULL_CANCELLATION_CONFIRMED") := by
  refine ⟨fun hc hp => ?_, fun hc hp => ?_, fun ha hp hfl => ?_, fun hp => ?_⟩
  · unfold execute_order_management
    simp [if_pos hc, is_post_placement, hp]
  · unfold execute_order_management
    simp [if_pos hc, is_post_placement, hp]
  · have hnc : r.action ≠ "clear" := by rw [ha]; decide
    rw [execute_food_list r menu config hnc] at hfl
    rw [execute_response r menu config hnc]
    unfold order_response
    have hpost : is_post_placement config = true := by
      simp [is_post_placement, hp]
    rw [if_pos ⟨ha, hpost, hfl⟩]
  · by_cases hc : r.action = "clear"
    · unfold execute_order_management
      simp [if_pos hc, is_post_placement, hp]
    · rw [execute_response r menu config hc]
      have hpost : is_post_placement config = false := by
        simp [is_post_placement, hp]
      rw [hpost]
      exact order_response_ne_full _ _ _

/-- Witness for C3 at the spec's own example: with phase ORDER_PLACED and
cart consisting of one Burger, removing that burger yields the
full-cancellation outcome. -/
theorem post_placement_cancellation_signal_witness :
    (execute_order_management remove_burger_cmd menuBurger
        { phase := "ORDER_PLACED", current_category := "", food_list := [("101", 1)],
          food_customization_details := "" }).2 = "FULL_CANCELLATION_CONFIRMED" :=
  (post_placement_cancellation_signal remove_burger_cmd menuBurger
      { phase := "ORDER_PLACED", current_category := "", food_list := [("101", 1)],
        food_customization_details := "" }).2.2.1 (by decide) (by decide) (by decide)

/-! ### C4: phase advance is unconditional, not success-gated -/

/-- C4 counterexample: adding an unknown item ("pizza") to a fresh IDLE
session succeeds on no item (nothing added, removed or modified, cart still
empty, not-found response), yet the phase still advances from IDLE to
ORDERING — the claim says it should stay unchanged when no item
application succeeds. -/
theorem phase_advances_without_success :
    (execute_order_management add_pizza_cmd menuBurger
        initial_session_config).1.phase = "ORDERING" ∧
    (execute_order_management add_pizza_cmd menuBurger
        initial_session_config).1.food_list = [] ∧
    (execute_order_management add_pizza_cmd menuBurger
        initial_session_config).2 = "I couldn\x27t find those items in our menu." ∧
    (apply_items "add" menuBurger
        { food_list := [], actually_added := [], actually_removed := [],
          actually_modified := [], not_found_items := [] }
        add_pizza_cmd.items).actually_added = [] ∧
    (apply_items "add" menuBurger
        { food_list := [], actually_added := [], actually_removed := [],
          actually_modified := [], not_found_items := [] }
        add_pizza_cmd.items).actually_removed = [] ∧
    (apply_items "add" menuBurger
        { food_list := [], actually_added := [], actually_removed := [],
          actually_modified := [], not_found_items := [] }
        add_pizza_cmd.items).actually_modified = [] ∧
    initial_session_config.phase = "IDLE" ∧ ("IDLE" : String) ≠ "ORDERING" := by
  decide

/-- C4 amended: on every non-clear call the phase is set to ORDERING
whenever the session is not in ORDER_PLACED, whether or not any item
application succeeded; ORDER_PLACED is sticky; the clear branch leaves the
phase unchanged. -/
theorem phase_update_unconditional (r : FoodListUpdate) (menu : List MenuItem)
    (config : Config) :
    (config.phase = "ORDER_PLACED" →
      (execute_order_management r menu config).1.phase = "ORDER_PLACED") ∧
    (r.action ≠ "clear" → config.phase ≠ "ORDER_PLACED" →
      (execute_order_management r menu config).1.phase = "ORDERING") ∧
    (r.action = "clear" →
      (execute_order_management r menu config).1.phase = config.phase) := by
  refine ⟨fun hp => ?_, fun hc hp => ?_, fun hc => ?_⟩ <;>
    rw [execute_phase r menu config]
  · by_cases hc : r.action = "clear" <;> simp [hc, hp]
  · simp [hc, hp]
  · simp [hc]

/-- Witness for C4 amended: the no-success add still advances IDLE to
ORDERING. -/
theorem phase_update_unconditional_witness :
    (execute_order_management add_pizza_cmd menuBurger
        initial_session_config).1.phase = "ORDERING" :=
  (phase_update_unconditional add_pizza_cmd menuBurger
      initial_session_config).2.1 (by decide) (by decide)

/-! ### C6: menu guide on an empty tenant menu -/

/-- C6 counterexample: with an empty tenant menu, `execute_menu_guide` does
mutate the session — its phase is set to MENU_BROWSING before the
empty-menu check, so a fresh IDLE session does not keep its phase. -/
theorem menu_guide_mutates_phase_on_empty_menu :
    (menu_guide_start [] initial_session_config).2 = some no_menu_data_response ∧
    (menu_guide_start [] initial_session_config).1.phase = "MENU_BROWSING" ∧
    initial_session_config.phase = "IDLE" ∧
    ("MENU_BROWSING" : String) ≠ "IDLE" := by
  decide

/-- C6 amended: with an empty tenant menu, `execute_menu_guide` returns the
fixed no-menu-data response, and the only session mutation is the
unconditional `phase = MENU_BROWSING` assignment made before the check:
all other fields are unchanged. -/
theorem menu_guide_empty_menu_behavior (menu : List MenuItem) (config : Config)
    (h : menu = []) :
    (menu_guide_start menu config).2 = some no_menu_data_response ∧
    (menu_guide_start menu config).1 = { config with phase := "MENU_BROWSING" } := by
  subst h
  simp [menu_guide_start]

/-- Witness for C6 amended at the empty menu and a fresh session. -/
theorem menu_guide_empty_menu_behavior_witness :
    (menu_guide_start [] initial_session_config).2 = some no_menu_data_response ∧
    (menu_guide_start [] initial_session_config).1 =
      { initial_session_config with phase := "MENU_BROWSING" } :=
  menu_guide_empty_menu_behavior [] initial_session_config rfl

/-! ### Loop decomposition lemmas -/

lemma apply_item_food_list (a : String) (m : List MenuItem) (s : ApplyState)
    (i : FoodItem) :
    (apply_item a m s i).food_list = cart_step a m s.food_list i := by
  unfold apply_item cart_step
  cases hn : name_to_id m (strLower i.name)
  · rfl
  · rename_i mid
    dsimp only
    split_ifs <;> try rfl
    all_goals cases hg : s.food_list.get mid <;> dsimp only <;> try rfl
    all_goals split_ifs <;> rfl

lemma apply_items_food_list (a : String) (m : List MenuItem) :
    ∀ (l : List FoodItem) (s : ApplyState),
      (apply_items a m s l).food_list = List.foldl (cart_step a m) s.food_list l := by
  intro l
  induction l with
  | nil => intro s; rfl
  | cons i rest ih =>
    intro s
    show (apply_items a m (apply_item a m s i) rest).food_list = _
    rw [ih, apply_item_food_list]
    rfl

lemma cart_step_unresolved (a : String) (m : List MenuItem) (c : Cart)
    (i : FoodItem) (h : name_to_id m (strLower i.name) = none) :
    cart_step a m c i = c := by
  unfold cart_step
  rw [h]

lemma apply_item_unresolved (a : String) (m : List MenuItem) (s : ApplyState)
    (i : FoodItem) (h : name_to_id m (strLower i.name) = none) :
    apply_item a m s i = { s with not_found_items := s.not_found_items ++ [i.name] } := by
  unfold apply_item
  rw [h]

lemma apply_items_append (a : String) (m : List MenuItem) :
    ∀ (xs ys : List FoodItem) (s : ApplyState),
      apply_items a m s (xs ++ ys) = apply_items a m (apply_items a m s xs) ys := by
  intro xs
  induction xs with
  | nil => intro ys s; rfl
  | cons i rest ih =>
    intro ys s
    show apply_items a m (apply_item a m s i) (rest ++ ys) = _
    rw [ih]
    rfl

lemma apply_item_not_found_extends (a : String) (m : List MenuItem)
    (s : ApplyState) (i : FoodItem) :
    ∃ t, (apply_item a m s i).not_found_items = s.not_found_items ++ t := by
  unfold apply_item
  cases hn : name_to_id m (strLower i.name)
  · exact ⟨[i.name], rfl⟩
  · rename_i mid
    dsimp only
    split_ifs
    · exact ⟨[], by simp⟩
    · cases hg : s.food_list.get mid <;> dsimp only
      · exact ⟨[i.name], by simp⟩
      · split_ifs <;> exact ⟨[], by simp⟩
    · cases hg : s.food_list.get mid <;> dsimp only
      · exact ⟨[i.name], by simp⟩
      · exact ⟨[], by simp⟩
    · exact ⟨[], by simp⟩
    · exact ⟨[], by simp⟩

lemma apply_items_not_found_extends (a : String) (m : List MenuItem) :
    ∀ (l : List FoodItem) (s : ApplyState),
      ∃ t, (apply_items a m s l).not_found_items = s.not_found_items ++ t := by
  intro l
  induction l with
  | nil => intro s; exact ⟨[], by simp [apply_items]⟩
  | cons i rest ih =>
    intro s
    obtain ⟨t1, h1⟩ := apply_item_not_found_extends a m s i
    obtain ⟨t2, h2⟩ := ih (apply_item a m s i)
    refine ⟨t1 ++ t2, ?_⟩
    show (apply_items a m (apply_item a m s i) rest).not_found_items = _
    rw [h2, h1, List.append_assoc]

lemma apply_items_nil_menu (a : String) :
    ∀ (l : List FoodItem) (s : ApplyState),
      apply_items a [] s l =
        { s with not_found_items := s.not_found_items ++ l.map fun i => i.name } := by
  intro l
  induction l with
  | nil => intro s; simp [apply_items]
  | cons i rest ih =>
    intro s
    show apply_items a [] (apply_item a [] s i) rest = _
    rw [apply_item_unresolved a [] s i rfl, ih]
    simp

lemma apply_customization_items (r : FoodListUpdate) (l : List FoodItem)
    (c : Config) :
    apply_customization { r with items := l } c = apply_customization r c := rfl

/-! ### C7: per-item isolation in a batch -/

/-- C7: in a multi-item command, an unresolvable reference is recorded as
not found and contributes no cart change — deleting it from the batch
yields the same stored cart, so every resolvable item in the batch still
takes full effect. -/
theorem unresolvable_item_isolation (r : FoodListUpdate) (menu : List MenuItem)
    (config : Config) (xs ys : List FoodItem) (u : FoodItem)
    (hact : r.action ≠ "clear")
    (hu : name_to_id menu (strLower u.name) = none) :
    (execute_order_management { r with items := xs ++ u :: ys } menu config).1.food_list =
      (execute_order_management { r with items := xs ++ ys } menu config).1.food_list ∧
    u.name ∈ (apply_items r.action menu
        { food_list := (apply_customization r config).food_list,
          actually_added := [], actually_removed := [], actually_modified := [],
          not_found_items := [] } (xs ++ u :: ys)).not_found_items := by
  constructor
  · rw [execute_food_list { r with items := xs ++ u :: ys } menu config hact,
      execute_food_list { r with items := xs ++ ys } menu config hact]
    simp only [apply_customization_items]
    rw [apply_items_food_list, apply_items_food_list]
    dsimp only
    rw [List.foldl_append, List.foldl_append, List.foldl_cons,
      cart_step_unresolved r.action menu _ u hu]
  · rw [apply_items_append]
    show u.name ∈ (apply_items r.action menu (apply_item r.action menu _ u) ys).not_found_items
    rw [apply_item_unresolved r.action menu _ u hu]
    obtain ⟨t, ht⟩ := apply_items_not_found_extends r.action menu ys
      { apply_items r.action menu
          { food_list := (apply_customization r config).food_list, actually_added := [],
            actually_removed := [], actually_modified := [], not_found_items := [] } xs with
        not_found_items :=
          (apply_items r.action menu
            { food_list := (apply_customization r config).food_list, actually_added := [],
              actually_removed := [], actually_modified := [], not_found_items := [] } xs).not_found_items ++ [u.name] }
    rw [ht]
    simp

/-- Witness for C7 at the spec's example: the batch
[add(Burger, 1), add(pizza, 1)] on a fresh session stores exactly
cart entry ("101", 1) — the same cart as a batch without the unknown item —
and records "pizza" as not found. -/
theorem unresolvable_item_isolation_witness :
    ((execute_order_management
          { add_burger_cmd with items := [⟨"Burger", 1⟩] ++ ⟨"pizza", 1⟩ :: [] }
          menuBurger initial_session_config).1.food_list =
        (execute_order_management
          { add_burger_cmd with items := [⟨"Burger", 1⟩] ++ [] }
          menuBurger initial_session_config).1.food_list ∧
      "pizza" ∈ (apply_items add_burger_cmd.action menuBurger
          { food_list := (apply_customization add_burger_cmd initial_session_config).food_list,
            actually_added := [], actually_removed := [], actually_modified := [],
            not_found_items := [] } ([⟨"Burger", 1⟩] ++ ⟨"pizza", 1⟩ :: [])).not_found_items) ∧
    (execute_order_management
        { add_burger_cmd with items := [⟨"Burger", 1⟩] ++ ⟨"pizza", 1⟩ :: [] }
        menuBurger initial_session_config).1.food_list = [("101", 1)] :=
  ⟨unresolvable_item_isolation add_burger_cmd menuBurger initial_session_config
      [⟨"Burger", 1⟩] [] ⟨"pizza", 1⟩ (by decide) (by decide),
   by decide⟩

/-! ### Cart dictionary lemmas -/

lemma Cart.get_cons (k2 : String) (v2 : Int) (rest : Cart) (k : String) :
    Cart.get ((k2, v2) :: rest) k = if k2 = k then some v2 else Cart.get rest k := rfl

lemma Cart.get_none_setVal (c : Cart) (k : String) (v : Int) (h : c.get k = none) :
    c.setVal k v = c ++ [(k, v)] := by
  induction c with
  | nil => rfl
  | cons kv rest ih =>
    obtain ⟨k2, v2⟩ := kv
    rw [Cart.get_cons] at h
    unfold Cart.setVal
    split_ifs at h ⊢ with h2
    rw [ih h]
    rfl

lemma Cart.get_none_filter (c : Cart) (k : String) (p : String × Int → Bool)
    (h : c.get k = none) : Cart.get (List.filter p c) k = none := by
  induction c with
  | nil => rfl
  | cons kv rest ih =>
    obtain ⟨k2, v2⟩ := kv
    rw [Cart.get_cons] at h
    split_ifs at h with h2
    rw [List.filter_cons]
    split_ifs
    · rw [Cart.get_cons, if_neg h2]
      exact ih h
    · exact ih h

lemma Cart.get_append_none (a b : Cart) (k : String) (h : Cart.get a k = none) :
    Cart.get (a ++ b) k = Cart.get b k := by
  induction a with
  | nil => rfl
  | cons kv rest ih =>
    obtain ⟨k2, v2⟩ := kv
    rw [Cart.get_cons] at h
    split_ifs at h with h2
    show Cart.get ((k2, v2) :: (rest ++ b)) k = Cart.get b k
    rw [Cart.get_cons, if_neg h2]
    exact ih h

/-! ### C10: modify creates an absent entry -/

/-- C10: a modify command with a positive quantity for a resolvable item
that is absent from the cart creates the entry with exactly that quantity
and reports the item as modified ("Updated your order: ..."), rather than
failing or being restricted to items already in the cart. -/
theorem modify_creates_absent_entry (r : FoodListUpdate) (menu : List MenuItem)
    (config : Config) (i : FoodItem) (mid : String)
    (hact : r.action = "modify") (hitems : r.items = [i])
    (hres : name_to_id menu (strLower i.name) = some mid)
    (hqty : 0 < i.quantity)
    (habs : config.food_list.get mid = none) :
    (execute_order_management r menu config).1.food_list.get mid = some i.quantity ∧
    (execute_order_management r menu config).2 =
      "Updated your order: " ++ toString i.quantity ++ "x " ++ i.name := by
  have hnc : r.action ≠ "clear" := by rw [hact]; decide
  have habs2 : (apply_customization r config).food_list.get mid = none := by
    rw [apply_customization_food_list]; exact habs
  have hstate : apply_items r.action menu
      { food_list := (apply_customization r config).food_list, actually_added := [],
        actually_removed := [], actually_modified := [], not_found_items := [] } r.items =
      { food_list := (apply_customization r config).food_list.setVal mid i.quantity,
        actually_added := [], actually_removed := [], actually_modified := [i],
        not_found_items := [] } := by
    rw [hitems]
    show apply_item r.action menu _ i = _
    unfold apply_item
    rw [hres, hact]
    dsimp only
    rw [if_neg (by decide : ¬ ("modify" : String) = "add"),
      if_neg (by decide : ¬ ("modify" : String) = "remove"),
      if_pos (rfl : ("modify" : String) = "modify"),
      if_neg (by omega : ¬ i.quantity = 0)]
    simp
  constructor
  · rw [execute_food_list r menu config hnc, hstate]
    dsimp only
    rw [Cart.get_none_setVal _ _ _ habs2, List.filter_append,
      Cart.get_append_none _ _ _ (Cart.get_none_filter _ _ _ habs2)]
    have hq : (0 : Int) < i.quantity := hqty
    simp [List.filter_cons, Cart.get_cons, hq]
  · rw [execute_response r menu config hnc, hstate]
    unfold order_response
    rw [hact]
    rw [if_neg (by rintro ⟨h1, -⟩; exact absurd h1 (by decide)),
      if_neg (by decide : ¬ ("modify" : String) = "add"),
      if_neg (by decide : ¬ ("modify" : String) = "remove"),
      if_pos (rfl : ("modify" : String) = "modify")]
    rw [if_pos (by simp : ([i] : List FoodItem) ≠ [])]
    show "Updated your order: " ++ fmt_qty_items [i] = _
    unfold fmt_qty_items
    show "Updated your order: " ++
      String.intercalate ", " [toString i.quantity ++ "x " ++ i.name] = _
    rw [String.append_assoc, String.append_assoc]
    rfl

/-- Witness for C10: setting "burger" to 2 on a fresh empty cart creates
entry ("101", 2) and reports it as updated. -/
theorem modify_creates_absent_entry_witness :
    (execute_order_management modify_burger_cmd menuBurger
        initial_session_config).1.food_list.get "101" = some 2 ∧
    (execute_order_management modify_burger_cmd menuBurger
        initial_session_config).2 =
      "Updated your order: " ++ toString (2 : Int) ++ "x " ++ "burger" :=
  modify_creates_absent_entry modify_burger_cmd menuBurger initial_session_config
    ⟨"burger", 2⟩ "101" (by decide) (by decide) (by decide) (by decide) (by decide)

/-! ### C5: no configuration-error path for an empty menu -/

/-- C5 counterexample: with an empty tenant menu, `execute_order_management`
returns exactly the per-item not-found response — the same string returned
for an unknown item under a non-empty menu — so the menu's absence is
reported as individual items not being found, and no distinct
configuration-error response exists. -/
theorem empty_menu_reported_as_not_found :
    (execute_order_management add_burger_cmd [] initial_session_config).2 =
      "I couldn\x27t find those items in our menu." ∧
    (execute_order_management add_pizza_cmd menuBurger initial_session_config).2 =
      (execute_order_management add_burger_cmd [] initial_session_config).2 := by
  decide

/-- C5 amended: `execute_order_management` has no configuration-error path:
with an empty tenant menu every item reference fails resolution and an add
command returns the ordinary not-found response, the cart changing only by
the positivity purge. -/
theorem empty_menu_add_response (r : FoodListUpdate) (config : Config)
    (hact : r.action = "add") :
    (execute_order_management r [] config).2 =
      "I couldn\x27t find those items in our menu." ∧
    (execute_order_management r [] config).1.food_list =
      config.food_list.filter fun kv => 0 < kv.2 := by
  have hnc : r.action ≠ "clear" := by rw [hact]; decide
  constructor
  · rw [execute_response r [] config hnc, apply_items_nil_menu]
    unfold order_response
    rw [hact]
    rw [if_neg (by rintro ⟨h1, -⟩; exact absurd h1 (by decide)),
      if_pos (rfl : ("add" : String) = "add")]
    rw [if_neg (by simp)]
  · rw [execute_food_list r [] config hnc, apply_items_nil_menu]
    dsimp only
    rw [apply_customization_food_list]

/-- Witness for C5 amended: the empty-menu add of one Burger on a fresh
session. -/
theorem empty_menu_add_response_witness :
    (execute_order_management add_burger_cmd [] initial_session_config).2 =
      "I couldn\x27t find those items in our menu." ∧
    (execute_order_management add_burger_cmd [] initial_session_config).1.food_list =
      initial_session_config.food_list.filter fun kv => 0 < kv.2 :=
  empty_menu_add_response add_burger_cmd initial_session_config (by decide)

/-! ### C2: canonical-id references are never resolved -/

/-- C2 (code bug): on a menu whose single item has canonical identifier
"101" and display name "Burger", a command referencing the item by its
canonical identifier is reported as not found (no id lookup is performed:
the `id_to_item` table built by the code is never consulted), while the
same command by display name in any case resolves to cart entry "101" —
contradicting the claimed id-first-then-name resolution rule. -/
theorem canonical_id_reference_not_resolved :
    MenuItem.canonical_id ⟨101, some "Burger", none⟩ = "101" ∧
    name_to_id menuBurger (strLower "101") = none ∧
    (execute_order_management add_id_cmd menuBurger initial_session_config).1.food_list = [] ∧
    (execute_order_management add_id_cmd menuBurger initial_session_config).2 =
      "I couldn\x27t find those items in our menu." ∧
    (execute_order_management add_burger_cmd menuBurger initial_session_config).1.food_list =
      [("101", 1)] := by
  decide

end FoodOrder
